import Mathlib

/-!
Verification of the custom-chart-builder widget family.

A shallow embedding of the data-aggregation and interaction core of the
five donut/legend status widgets (part_000, part_001, part_002 and
projects/custom-chart/src/chart.ts), with theorems settling the frozen
claims about it.

Modelling conventions, used throughout:

* A JavaScript number is `Option ℚ`, with `none` standing for NaN.  The
  embedded code paths perform only +, *, /, comparison and Math.round; no
  path can overflow to Infinity in the rational model, and the one
  division is guarded by a positivity test on the divisor.
* A JavaScript cell value is the inductive `JsVal`.  A string carries the
  result of the `Number(s)` coercion as data (JS decimal parsing itself is
  not re-implemented); `String(number)` rendering is abstracted by
  rational printing, and no claim depends on it.
* A JS record object (`Record<string, T>`) is an association list kept in
  first-insertion key order, with assignment `m[k] = v` as `upsert`:
  exactly `Object.keys` enumeration order.
* DOM and SVG rendering are out of scope; click handlers are modelled as
  pure state transformers that also return, in emission order, the
  `postMessage` payloads sent to the host.
-/

namespace ChartSem

/-- A JavaScript number: `none` models NaN, `some q` a finite value. -/
abbrev JsNum := Option ℚ

/-- JS addition; NaN propagates. -/
def jsAdd : JsNum → JsNum → JsNum
  | some a, some b => some (a + b)
  | _, _ => none

/-- JS multiplication; NaN propagates. -/
def jsMul : JsNum → JsNum → JsNum
  | some a, some b => some (a * b)
  | _, _ => none

/-- JS division; NaN propagates.  Division by zero yields NaN or Infinity
in JS, neither of which is a finite rational; it is mapped to `none`.  The
only division in the embedded code runs under a `total > 0` guard, so this
case is unreachable there. -/
def jsDiv : JsNum → JsNum → JsNum
  | some a, some b => if b = 0 then none else some (a / b)
  | _, _ => none

/-- Math.round on a finite value: round half toward positive infinity. -/
def jsRound (q : ℚ) : ℤ := ⌊q + 1 / 2⌋

/-- Math.round as a JS-number operation; Math.round(NaN) is NaN. -/
def jsRoundNum : JsNum → JsNum
  | some q => some ((jsRound q : ℤ) : ℚ)
  | none => none

/-- The comparison `x > 0`; every comparison with NaN is false. -/
def jsGtZero : JsNum → Bool
  | some q => decide (0 < q)
  | none => false

/-- `list.reduce((s, x) => s + x, 0)` over JS numbers. -/
def jsSum (l : List JsNum) : JsNum := l.foldl jsAdd (some 0)

/-- Truncation toward zero, as JS `%` truncates its quotient. -/
def ratTrunc (q : ℚ) : ℤ := if 0 ≤ q then ⌊q⌋ else ⌈q⌉

/-- The JS remainder `a % b`: `a - b * trunc(a / b)`, sign of the dividend. -/
def ratTMod (a b : ℚ) : ℚ := a - b * (ratTrunc (a / b) : ℚ)

/-- JS array indexing `l[q]`: a value only for a nonnegative integral index
in range; any other index (negative, fractional, NaN) reads as undefined. -/
def jsIndex {α : Type} (l : List α) (q : ℚ) : Option α :=
  if q.den = 1 ∧ 0 ≤ q.num then l.get? q.num.toNat else none

/-- A JavaScript cell value as the host hands it to the widget. -/
inductive JsVal where
  | undefined
  | nullv
  | num (q : JsNum)
  | str (s : String) (coerced : JsNum)
  | obj (fields : List (String × JsVal))

/-- Field access `v[k]` (none when `v` is not an object or lacks the key). -/
def jsField : JsVal → String → Option JsVal
  | .obj fields, k => (fields.find? (fun p => p.1 = k)).map (fun p => p.2)
  | _, _ => none

/-- The test whether key `k` is a field of `v` (`in`). -/
def jsHasField (v : JsVal) (k : String) : Bool := (jsField v k).isSome

/-- `Object.values(v)`. -/
def objValues : JsVal → List JsVal
  | .obj fields => fields.map (fun p => p.2)
  | _ => []

/-- `Number(v)` on the shapes that occur in the data path: `Number` of any
plain object is NaN, `Number(null)` is 0, `Number(undefined)` is NaN. -/
def jsToNumber : JsVal → JsNum
  | .undefined => none
  | .nullv => some 0
  | .num q => q
  | .str _ c => c
  | .obj _ => none

/-- JS truthiness. -/
def jsTruthy : JsVal → Bool
  | .undefined => false
  | .nullv => false
  | .num none => false
  | .num (some q) => decide (q ≠ 0)
  | .str s _ => decide (s ≠ "")
  | .obj _ => true

/-- `v === undefined || v === null`. -/
def isNullish : JsVal → Bool
  | .undefined => true
  | .nullv => true
  | _ => false

/-- The test `typeof v === "object" && v !== null`. -/
def isObjNotNull : JsVal → Bool
  | .obj _ => true
  | _ => false

/-- `String(v)`.  JS float formatting is abstracted by rational printing;
no embedded claim depends on the rendering of a numeric cell as a name. -/
def jsToString : JsVal → String
  | .undefined => "undefined"
  | .nullv => "null"
  | .num none => "NaN"
  | .num (some q) => toString q
  | .str s _ => s
  | .obj _ => "[object Object]"

/-- Nullish coalescing over a field read: `null` and `undefined` both fall
through to the next alternative of an `a ?? b` chain. -/
def jsDefined : Option JsVal → Option JsVal
  | some .undefined => none
  | some .nullv => none
  | x => x

/-- JS object assignment `m[k] = v` on a record modelled as an association
list: overwrites the existing entry in place (keeping `Object.keys` order),
appends otherwise. -/
def upsert {α : Type} : List (String × α) → String → α → List (String × α)
  | [], k, v => [(k, v)]
  | (k₀, v₀) :: rest, k, v =>
      if k₀ = k then (k, v) :: rest else (k₀, v₀) :: upsert rest k v

/-- Record read `m[k]`. -/
def lookupA {α : Type} (m : List (String × α)) (k : String) : Option α :=
  (m.find? (fun p => p.1 = k)).map (fun p => p.2)

/-- Truthiness of a `string | null | undefined` value: the empty string is
falsy, like null and undefined. -/
def selTruthy : Option String → Bool
  | some s => decide (s ≠ "")
  | none => false

/-- `a || b` on optional strings (the empty string is falsy). -/
def strOr (a b : Option String) : Option String :=
  match a with
  | some s => if s = "" then b else some s
  | none => b

/-- `a || b` on JS numbers (0 and NaN are falsy). -/
def jsNumOr (a b : JsNum) : JsNum :=
  match a with
  | some q => if q = 0 then b else some q
  | none => b

/-- A slot column as configured by the host (only the fields the embedded
code reads). -/
structure Column where
  columnId : Option String := none
  datasetId : Option String := none
  set : Option String := none
  column : Option String := none
  level : JsNum := none
  aggregationFunc : Option String := none
  aggregation : Option String := none
  format : Option String := none
deriving DecidableEq

/-- A named slot with its assigned columns. -/
structure Slot where
  name : String
  content : List Column
deriving DecidableEq

/-- `slots.find(s => s.name === n)`. -/
def findSlot (slots : List Slot) (n : String) : Option Slot :=
  slots.find? (fun s => s.name = n)

/-- `slot?.content && slot.content.length > 0`. -/
def slotFilled : Option Slot → Bool
  | some s => decide (s.content ≠ [])
  | none => false

/-- `slot?.content?.[0]`. -/
def slotFirstCol : Option Slot → Option Column
  | some s => s.content.head?
  | none => none

/-- `row[i]`: reading past the end of a row gives undefined. -/
def rowCell (row : List JsVal) (i : ℕ) : JsVal := (row.get? i).getD .undefined

/-- A filter parameter value on the wire. -/
inductive FilterVal where
  | str (s : String)
  | num (q : ℚ)
  | pair (lo hi : ℚ)
deriving DecidableEq

/-- One filter expression as posted to the host (`properties` flattened
into the `origin` and `filterType` fields). -/
structure FilterExpr where
  expression : String
  columnId : Option String
  datasetId : Option String
  value : FilterVal
  origin : String
  filterType : String
deriving DecidableEq

/-- A `customEvent` payload; fields a given variant does not put on its
payload are `none`. -/
structure CustomEv where
  eventType : String
  category : String
  count : JsNum
  totalRecords : Option JsNum
  aggregatedScore : Option JsNum
  isFiltered : Option Bool
deriving DecidableEq

/-- One `window.parent.postMessage` payload. -/
inductive Msg where
  | setFilter (filters : List FilterExpr)
  | customEvent (e : CustomEv)
deriving DecidableEq

/-- A dimension object of a built query. -/
structure DimSpec where
  datasetId : Option String
  columnId : Option String
  level : JsNum
deriving DecidableEq

/-- A measure object of a built query. -/
structure MeasSpec where
  datasetId : Option String
  columnId : Option String
  aggregation : Option String := none
  format : Option String := none
deriving DecidableEq

/-- A built query.  `order`/`limit` are `none` when the source object
literal has no such key. -/
structure ItemQuery where
  dimensions : List DimSpec
  measures : List MeasSpec
  order : Option (List Unit) := none
  limit : Option (ℕ × ℕ) := none
deriving DecidableEq

end ChartSem

open ChartSem

namespace P0

/-! ## part_000: pre-aggregated health-category widget -/

/-- part_000 `extractValue(obj, "number")` (lines 154-168). -/
def extractValue (v : JsVal) : JsNum :=
  match v with
  | .undefined => some 0
  | .nullv => some 0
  | .num q => q
  | .obj fields =>
      match fields.find? (fun p => p.1 = "id") with
      | some p => jsToNumber p.2
      | none => jsToNumber (.obj fields)
  | .str s c => jsToNumber (.str s c)

/-- part_000 `extractCategoryName` (lines 173-185). -/
def extractCategoryName (v : JsVal) (language : String) : String :=
  if jsTruthy v = false then "Unknown"
  else
    match jsField v "name" with
    | some nameObj =>
        if isObjNotNull nameObj then
          match jsDefined (jsField nameObj language) with
          | some x => jsToString x
          | none =>
            match jsDefined (jsField nameObj "en") with
            | some x => jsToString x
            | none =>
              match jsDefined (objValues nameObj).head? with
              | some x => jsToString x
              | none =>
                match jsDefined (jsField v "id") with
                | some x => jsToString x
                | none => "Unknown"
        else
          match jsDefined (some nameObj) with
          | some x => jsToString x
          | none =>
            match jsDefined (jsField v "id") with
            | some x => jsToString x
            | none => "Unknown"
    | none =>
        match jsDefined (jsField v "id") with
        | some x => jsToString x
        | none => jsToString v

/-- Per-category data stored in `categoryData`. -/
structure CatData where
  count : JsNum
  avgScore : JsNum
deriving DecidableEq

/-- One legend/donut category of the view state. -/
structure StatusCategory where
  name : String
  count : JsNum
  color : Option String
  columnId : Option String
  datasetId : Option String
  value : String
deriving DecidableEq

/-- The view state `processData` returns (presentation-only `title` and the
slot echoes other than `categorySlot` omitted). -/
structure ChartState where
  categories : List StatusCategory
  total : JsNum
  overallTotal : JsNum
  aggregatedScore : JsNum
  categorySlot : Option Slot
  selectedCategory : Option String
  allCategoryData : List (String × CatData)

/-- The body of the `data.forEach` of part_000 `processData` (lines
242-263): one row updates `categoryData` and `categoryOrders`. -/
def processRow (hasOrder : Bool) (language : String)
    (acc : List (String × CatData) × List (String × ℚ)) (row : List JsVal) :
    List (String × CatData) × List (String × ℚ) :=
  let categoryObj := rowCell row 0
  let orderValueObj := if hasOrder then rowCell row 1 else JsVal.undefined
  let sizeObj := if hasOrder then rowCell row 2 else rowCell row 1
  let avgScoreObj := if hasOrder then rowCell row 3 else rowCell row 2
  let categoryValue := extractCategoryName categoryObj language
  let cd := upsert acc.1 categoryValue ⟨extractValue sizeObj, extractValue avgScoreObj⟩
  let co :=
    if hasOrder && !isNullish orderValueObj then
      match extractValue orderValueObj with
      | some q => upsert acc.2 categoryValue q
      | none => acc.2
    else acc.2
  (cd, co)

/-- The fallback sample dataset of part_000 (lines 272-276). -/
def sampleCategoryData : List (String × CatData) :=
  [("Healthy", ⟨some 6, some 87⟩), ("Warning", ⟨some 4, some 65⟩),
   ("Error", ⟨some 2, some 35⟩)]

/-- The hardcoded display order used when no order column applies. -/
def hardcodedOrder : List String := ["Healthy", "Warning", "Error"]

/-- `categoryData[cat]` for a key known to be present (the default is never
read: every key looked up is a key of the record). -/
def lookupCD (m : List (String × CatData)) (k : String) : CatData :=
  (lookupA m k).getD ⟨some 0, some 0⟩

/-- `categoryOrders[c] ?? 999`. -/
def orderKey (co : List (String × ℚ)) (c : String) : ℚ := (lookupA co c).getD 999

/-- part_000 `getCategoryColor` (lines 344-368).  JS indexing is partial:
a negative or fractional order value reads `colorArray[...]` as undefined. -/
def getCategoryColor (categoryValue : String) (categoryOrders : List (String × ℚ))
    (hasOrderColumn : Bool) : Option String :=
  let healthyColor := "#75BB43"
  let warningColor := "#FEC325"
  let errorColor := "#BA1A1A"
  match hasOrderColumn, lookupA categoryOrders categoryValue with
  | true, some orderValue =>
      jsIndex [healthyColor, warningColor, errorColor] (ratTMod orderValue 3)
  | _, _ =>
      some (if categoryValue = "Healthy" then healthyColor
            else if categoryValue = "Warning" then warningColor
            else if categoryValue = "Error" then errorColor
            else healthyColor)

/-- part_000 `calculateAggregatedScore` (lines 373-381). -/
def calculateAggregatedScore (categories : List String)
    (categoryData : String → CatData) : JsNum :=
  let total := jsSum (categories.map (fun cat => (categoryData cat).count))
  let weightedSum := jsSum (categories.map (fun cat =>
    jsMul (categoryData cat).count (categoryData cat).avgScore))
  if jsGtZero total then jsRoundNum (jsDiv weightedSum total) else some 0

/-- part_000 `processData` (lines 213-339).  The `colors` parameter is
carried but, as in the source, never read by the category logic. -/
def processData (data : List (List JsVal)) (slots : List Slot)
    (colors : List String) (language : String)
    (selectedCategory : Option String) : ChartState :=
  let categorySlot := findSlot slots "category"
  let sizeSlot := findSlot slots "size"
  let measureSlot := findSlot slots "measure"
  let orderSlot := findSlot slots "order"
  let hasOrderColumn := slotFilled orderSlot
  let canProcess := slotFilled categorySlot && slotFilled sizeSlot &&
    slotFilled measureSlot && !data.isEmpty
  let maps := if canProcess then data.foldl (processRow hasOrderColumn language) ([], [])
    else ([], [])
  let categoryOrders := maps.2
  let categoryData := if maps.1.isEmpty then sampleCategoryData else maps.1
  let allCategoryData := categoryData
  let uniqueCategories :=
    if hasOrderColumn && !categoryOrders.isEmpty then
      (categoryData.map Prod.fst).mergeSort
        (fun a b => orderKey categoryOrders a ≤ orderKey categoryOrders b)
    else
      let keys := categoryData.map Prod.fst
      let head := hardcodedOrder.filter (fun c => keys.contains c)
      head ++ keys.filter (fun c => !head.contains c)
  let overallTotal := jsSum (uniqueCategories.map
    (fun cat => (lookupCD categoryData cat).count))
  let filteredCategories :=
    if selTruthy selectedCategory then
      uniqueCategories.filter (fun cat => some cat = selectedCategory)
    else uniqueCategories
  let total := jsSum (filteredCategories.map
    (fun cat => (lookupCD categoryData cat).count))
  let aggregatedScore := calculateAggregatedScore filteredCategories (lookupCD categoryData)
  let categories := uniqueCategories.map (fun categoryValue =>
    ({ name := categoryValue
       count := (lookupCD categoryData categoryValue).count
       color := getCategoryColor categoryValue categoryOrders hasOrderColumn
       columnId := (slotFirstCol categorySlot).bind Column.columnId
       datasetId := (slotFirstCol categorySlot).bind Column.datasetId
       value := categoryValue } : StatusCategory))
  { categories := categories
    total := total
    overallTotal := overallTotal
    aggregatedScore := aggregatedScore
    categorySlot := categorySlot
    selectedCategory := if selTruthy selectedCategory then selectedCategory else none
    allCategoryData := allCategoryData }

/-- part_000 `createCategoryFilter` (lines 794-817). -/
def createCategoryFilter (categorySlot : Option Slot) (categoryValue : String) :
    List FilterExpr :=
  match slotFirstCol categorySlot with
  | none => []
  | some column =>
      [{ expression := "? = ?"
         columnId := column.columnId
         datasetId := column.datasetId
         value := .str categoryValue
         origin := "filterFromVizItem"
         filterType := "where" }]

/-- part_000 `handleCategoryClick` (lines 823-867): toggles the selection,
reprocesses the data under the new selection and posts a `customEvent`
followed by a `setFilter` message. -/
def handleCategoryClick (data : List (List JsVal)) (slots : List Slot)
    (colors : List String) (language : String)
    (category : StatusCategory) (state : ChartState) : ChartState × List Msg :=
  let clickedValue := category.value
  let wasSelected := state.selectedCategory = some clickedValue
  let newSelection := if wasSelected then none else some clickedValue
  let newState := processData data slots colors language newSelection
  let ev : CustomEv :=
    { eventType := "categorySelected"
      category := category.name
      count := category.count
      totalRecords := some newState.total
      aggregatedScore := some newState.aggregatedScore
      isFiltered := some newState.selectedCategory.isSome }
  let filterMsg :=
    if selTruthy newState.selectedCategory then
      Msg.setFilter (createCategoryFilter newState.categorySlot clickedValue)
    else Msg.setFilter []
  (newState, [Msg.customEvent ev, filterMsg])

/-- part_000 `buildDimension` (lines 876-882). -/
def buildDimension (column : Column) : DimSpec :=
  { datasetId := strOr column.datasetId column.set
    columnId := strOr column.columnId column.column
    level := jsNumOr column.level (some 1) }

/-- The aggregation functions part_000 `buildMeasure` accepts. -/
def allowedAggs : List String := ["sum", "average", "min", "max", "count"]

/-- part_000 `buildMeasure` (lines 887-898). -/
def buildMeasure (column : Column) : MeasSpec :=
  { datasetId := strOr column.datasetId column.set
    columnId := strOr column.columnId column.column
    aggregation :=
      match column.aggregationFunc with
      | some f => if allowedAggs.contains f then some f else none
      | none => none }

/-- part_000 `buildQuery` (lines 919-965). -/
def buildQuery (slots : List Slot) : ItemQuery :=
  let categorySlot := findSlot slots "category"
  let sizeSlot := findSlot slots "size"
  let measureSlot := findSlot slots "measure"
  let orderSlot := findSlot slots "order"
  if !(slotFilled categorySlot && slotFilled sizeSlot && slotFilled measureSlot) then
    { dimensions := [], measures := [], order := some [] }
  else
    let dims :=
      [buildDimension ((slotFirstCol categorySlot).getD {})] ++
      (if slotFilled orderSlot then [buildDimension ((slotFirstCol orderSlot).getD {})]
       else [])
    let meas := [buildMeasure ((slotFirstCol sizeSlot).getD {}),
                 buildMeasure ((slotFirstCol measureSlot).getD {})]
    { dimensions := dims, measures := meas, order := some [] }

end P0

namespace P1

/-! ## part_001: row-level range-policy widget (no selection state) -/

/-- part_001 `categorizeScore` (lines 100-104). -/
def categorizeScore (score : ℚ) : String :=
  if score ≥ 81 then "Healthy" else if score ≥ 51 then "Warning" else "Error"

/-- One legend category. -/
structure SCategory where
  name : String
  count : ℕ
  color : String
  value : String
deriving DecidableEq

/-- The view state of part_001 (no selection tracking). -/
structure ChartState where
  categories : List SCategory
  total : ℕ
  aggregatedScore : ℤ
  measureSlot : Option Slot

/-- The fallback sample scores of part_001 (line 167). -/
def fallbackScores : List ℚ := [95, 87, 92, 78, 65, 45, 32, 88, 91, 56, 72, 38]

/-- `categoryCounts[c]` after the counting loop: how many scores fall in
band `c`. -/
def countCat (scores : List ℚ) (c : String) : ℕ :=
  (scores.filter (fun s => categorizeScore s = c)).length

/-- `Number(row[scoreIndex]) || 0` (line 156): NaN collapses to 0. -/
def scoreOfRow (scoreIndex : ℕ) (row : List JsVal) : ℚ :=
  (jsToNumber (rowCell row scoreIndex)).getD 0

/-- part_001 `processData` (lines 121-217). -/
def processData (data : List (List JsVal)) (slots : List Slot) : ChartState :=
  let measureSlot := findSlot slots "measure"
  let categorySlot := findSlot slots "category"
  let hasDimension := slotFilled categorySlot
  let scoreIndex := if hasDimension then 1 else 0
  let scoresRaw :=
    if slotFilled measureSlot && !data.isEmpty then data.map (scoreOfRow scoreIndex)
    else []
  let scores := if scoresRaw.isEmpty then fallbackScores else scoresRaw
  let aggregatedScore :=
    if 0 < scores.length then jsRound (scores.sum / (scores.length : ℚ)) else 0
  -- the measure column feeds only the columnId/datasetId echo on each
  -- category, omitted from the embedded SCategory as presentation plumbing
  { categories :=
      [{ name := "Healthy (81-100)", count := countCat scores "Healthy",
         color := "#75BB43", value := "Healthy" },
       { name := "Warning (51-80)", count := countCat scores "Warning",
         color := "#FEC235", value := "Warning" },
       { name := "Error (0-50)", count := countCat scores "Error",
         color := "#BA1A1A", value := "Error" }]
    total := scores.length
    aggregatedScore := aggregatedScore
    measureSlot := measureSlot }

/-- part_001 `handleCategoryClick` (lines 539-609): part_001 keeps no
selection state; every click posts a `customEvent` (without `isFiltered`)
and, when the measure slot is filled and the clicked value names a band, a
range filter.  It never posts an empty filter list. -/
def handleCategoryClick (category : SCategory) (state : ChartState) : List Msg :=
  let ev : CustomEv :=
    { eventType := "statusCategorySelected"
      category := category.name
      count := some (category.count : ℚ)
      totalRecords := some (some (state.total : ℚ))
      aggregatedScore := some (some (state.aggregatedScore : ℚ))
      isFiltered := none }
  let fmsgs :=
    match slotFirstCol state.measureSlot with
    | none => []
    | some column =>
        let filters : List FilterExpr :=
          if category.value = "Healthy" then
            [{ expression := "? >= ?", columnId := column.columnId,
               datasetId := column.datasetId, value := .num 81,
               origin := "filterFromVizItem", filterType := "where" }]
          else if category.value = "Warning" then
            [{ expression := "? between ?", columnId := column.columnId,
               datasetId := column.datasetId, value := .pair 51 80,
               origin := "filterFromVizItem", filterType := "where" }]
          else if category.value = "Error" then
            [{ expression := "? <= ?", columnId := column.columnId,
               datasetId := column.datasetId, value := .num 50,
               origin := "filterFromVizItem", filterType := "where" }]
          else []
        if filters.isEmpty then [] else [Msg.setFilter filters]
  [Msg.customEvent ev] ++ fmsgs

/-- part_001 `buildQuery` (lines 624-669). -/
def buildQuery (slots : List Slot) : ItemQuery :=
  let measureSlot := findSlot slots "measure"
  let categorySlot := findSlot slots "category"
  if !(slotFilled measureSlot) then
    { dimensions := [], measures := [], order := none, limit := some (10000, 0) }
  else
    let scoreColumn := (slotFirstCol measureSlot).getD {}
    let dims :=
      if slotFilled categorySlot then
        let idColumn := (slotFirstCol categorySlot).getD {}
        [({ datasetId := strOr idColumn.datasetId idColumn.set
            columnId := strOr idColumn.columnId idColumn.column
            level := jsNumOr idColumn.level (some 1) } : DimSpec)]
      else []
    let meas := [({ datasetId := strOr scoreColumn.datasetId scoreColumn.set
                    columnId := strOr scoreColumn.columnId scoreColumn.column
                    aggregation := none } : MeasSpec)]
    { dimensions := dims, measures := meas, order := some [], limit := some (10000, 0) }

end P1

namespace P2A

/-! ## part_002 (first sub-file): pre-aggregated attribute-policy widget -/

/-- part_002 `DEFAULT_CONFIG` (lines 60-90). -/
structure ComponentConfig where
  title : String
  colors : List String
  centerMetricIndex : Option ℕ
deriving DecidableEq

/-- The default palette, assigned by position to alphabetically sorted
attribute values. -/
def defaultConfig : ComponentConfig :=
  { title := "KPI Status"
    colors := ["#75BB43", "#BA1A1A", "#FEC325", "#3b82f6", "#8b5cf6", "#ec4899",
               "#06b6d4", "#84cc16"]
    centerMetricIndex := some 1 }

/-- The inline status display-name extraction of part_002 `processData`
(lines 250-262): like part_000 `extractCategoryName` except that a falsy
non-nullish cell (0, NaN, the empty string) is stringified instead of
becoming "Unknown". -/
def statusValueOf (v : JsVal) (language : String) : String :=
  match v with
  | .obj fields =>
      match jsField (.obj fields) "name" with
      | some nameObj =>
          if isObjNotNull nameObj then
            match jsDefined (jsField nameObj language) with
            | some x => jsToString x
            | none =>
              match jsDefined (jsField nameObj "en") with
              | some x => jsToString x
              | none =>
                match jsDefined (objValues nameObj).head? with
                | some x => jsToString x
                | none =>
                  match jsDefined (jsField (.obj fields) "id") with
                  | some x => jsToString x
                  | none => "Unknown"
          else
            match jsDefined (some nameObj) with
            | some x => jsToString x
            | none =>
              match jsDefined (jsField (.obj fields) "id") with
              | some x => jsToString x
              | none => "Unknown"
      | none =>
          match jsDefined (jsField (.obj fields) "id") with
          | some x => jsToString x
          | none => jsToString (.obj fields)
  | .undefined => "Unknown"
  | .nullv => "Unknown"
  | v =>
      match jsDefined (jsField v "id") with
      | some x => jsToString x
      | none => jsToString v

/-- The inline measure extraction of part_002 `processData` (lines
264-272). -/
def measureValueOf (v : JsVal) : JsNum :=
  match v with
  | .num q => q
  | .obj fields =>
      match fields.find? (fun p => p.1 = "id") with
      | some p => jsToNumber p.2
      | none => jsToNumber (.obj fields)
  | v => jsToNumber v

/-- The inline order extraction of part_002 `processData` (lines 277-286):
`none` when the cell is nullish (the order stays undefined), otherwise the
extracted JS number (possibly NaN). -/
def orderValueOf (v : JsVal) : Option JsNum :=
  match v with
  | .undefined => none
  | .nullv => none
  | .num q => some q
  | .obj fields =>
      some (match fields.find? (fun p => p.1 = "id") with
            | some p => jsToNumber p.2
            | none => jsToNumber (.obj fields))
  | v => some (jsToNumber v)

/-- The body of the `data.forEach` of part_002 `processData` (lines
242-294): one row updates `statusMeasures` (overwrite) and `statusOrders`
(keep the smallest non-NaN value). -/
def processRow (hasOrder : Bool) (language : String)
    (acc : List (String × JsNum) × List (String × ℚ)) (row : List JsVal) :
    List (String × JsNum) × List (String × ℚ) :=
  let statusValueObj := rowCell row 0
  let orderValueObj := if hasOrder then rowCell row 1 else JsVal.undefined
  let measureObj := if hasOrder then rowCell row 2 else rowCell row 1
  let statusValue := statusValueOf statusValueObj language
  let sm := upsert acc.1 statusValue (measureValueOf measureObj)
  let so :=
    match orderValueOf orderValueObj with
    | some (some q) =>
        match lookupA acc.2 statusValue with
        | none => upsert acc.2 statusValue q
        | some cur => if q < cur then upsert acc.2 statusValue q else acc.2
    | _ => acc.2
  (sm, so)

/-- The body of the `uniqueValues.forEach((value, index) => ...)` of
part_002 `assignColors` (lines 176-185): the color written for `value` at
position `index`. -/
def colorFor (config : ComponentConfig) (statusOrders : List (String × ℚ))
    (hasOrderColumn : Bool) (index : ℕ) (value : String) : Option String :=
  match hasOrderColumn, lookupA statusOrders value with
  | true, some orderValue =>
      jsIndex config.colors (ratTMod orderValue (config.colors.length : ℚ))
  | _, _ => config.colors.get? (index % config.colors.length)

/-- part_002 `assignColors` (lines 168-188): order value as palette index
when available, position-based indexing otherwise.  The JS palette read
can be undefined for a negative or fractional order value. -/
def assignColors (uniqueValues : List String) (config : ComponentConfig)
    (statusOrders : List (String × ℚ)) (hasOrderColumn : Bool) :
    List (String × Option String) :=
  uniqueValues.enum.map (fun p =>
    (p.2, colorFor config statusOrders hasOrderColumn p.1 p.2))

/-- One legend category of the attribute-policy widget (echoed slot ids
omitted). -/
structure ACategory where
  name : String
  count : JsNum
  value : String
deriving DecidableEq

/-- The slice of the attribute-policy view state that the click handler
reads and writes. -/
structure AState where
  total : JsNum
  selectedCategory : Option String
  statusSlot : Option Slot
deriving DecidableEq

/-- part_002 `handleCategoryClick` (lines 750-800): toggles the selection,
posts a `customEvent`, then either an equality filter (selected, status
slot filled) or an empty filter list (deselected). -/
def handleCategoryClick (category : ACategory) (state : AState) : AState × List Msg :=
  let clickedValue := category.value
  let wasSelected := state.selectedCategory = some clickedValue
  let sel : Option String := if wasSelected then none else some clickedValue
  let ev : CustomEv :=
    { eventType := "statusCategorySelected"
      category := category.name
      count := category.count
      totalRecords := some state.total
      aggregatedScore := none
      isFiltered := some sel.isSome }
  let fmsgs :=
    if selTruthy sel && slotFilled state.statusSlot then
      match slotFirstCol state.statusSlot with
      | none => []
      | some column =>
          [Msg.setFilter
            [{ expression := "? = ?", columnId := column.columnId,
               datasetId := column.datasetId, value := .str clickedValue,
               origin := "filterFromVizItem", filterType := "where" }]]
    else if !selTruthy sel then [Msg.setFilter []]
    else []
  ({ state with selectedCategory := sel }, [Msg.customEvent ev] ++ fmsgs)

/-- part_002 `buildQuery` of the attribute variant (lines 811-873). -/
def buildQuery (slots : List Slot) : ItemQuery :=
  let statusSlot := findSlot slots "category"
  let measureSlot := findSlot slots "measure"
  let orderSlot := findSlot slots "order"
  if !(slotFilled statusSlot && slotFilled measureSlot) then
    { dimensions := [], measures := [], order := some [] }
  else
    let statusColumn := (slotFirstCol statusSlot).getD {}
    let measureColumn := (slotFirstCol measureSlot).getD {}
    let dims :=
      [({ datasetId := strOr statusColumn.datasetId statusColumn.set
          columnId := strOr statusColumn.columnId statusColumn.column
          level := jsNumOr statusColumn.level (some 1) } : DimSpec)] ++
      (if slotFilled orderSlot then
        let orderColumn := (slotFirstCol orderSlot).getD {}
        [({ datasetId := strOr orderColumn.datasetId orderColumn.set
            columnId := strOr orderColumn.columnId orderColumn.column
            level := some 1 } : DimSpec)]
       else [])
    let meas := [({ datasetId := strOr measureColumn.datasetId measureColumn.set
                    columnId := strOr measureColumn.columnId measureColumn.column
                    aggregation :=
                      match measureColumn.aggregationFunc with
                      | some f => if P0.allowedAggs.contains f then some f else none
                      | none => none } : MeasSpec)]
    { dimensions := dims, measures := meas, order := some [] }

end P2A

namespace P2R

/-! ## part_002 (third sub-file): row-level range-policy widget with
selection state -/

/-- part_002 `categorizeScore` (lines 1825-1829). -/
def categorizeScore (score : ℚ) : String :=
  if score ≥ 81 then "Healthy" else if score ≥ 51 then "Warning" else "Error"

/-- One legend category. -/
structure RCategory where
  name : String
  count : ℕ
  color : String
  value : String
deriving DecidableEq

/-- The view state of the range widget with selection (lines 1935-1943). -/
structure RState where
  categories : List RCategory
  total : ℕ
  aggregatedScore : ℤ
  allScores : List ℚ
  selectedCategory : Option String
  measureSlot : Option Slot

/-- The fallback sample scores (line 1892). -/
def fallbackScores : List ℚ := [95, 87, 92, 78, 65, 45, 32, 88, 91, 56, 72, 38]

/-- `categoryCounts[c]` / `newCounts[c]`: how many scores fall in band `c`. -/
def countCat (scores : List ℚ) (c : String) : ℕ :=
  (scores.filter (fun s => categorizeScore s = c)).length

/-- `Number(row[scoreIndex]) || 0` (line 1881). -/
def scoreOfRow (scoreIndex : ℕ) (row : List JsVal) : ℚ :=
  (jsToNumber (rowCell row scoreIndex)).getD 0

/-- part_002 `processData` of the range variant (lines 1846-1944). -/
def processData (data : List (List JsVal)) (slots : List Slot) : RState :=
  let measureSlot := findSlot slots "measure"
  let categorySlot := findSlot slots "category"
  let hasDimension := slotFilled categorySlot
  let scoreIndex := if hasDimension then 1 else 0
  let scoresRaw :=
    if slotFilled measureSlot && !data.isEmpty then data.map (scoreOfRow scoreIndex)
    else []
  let scores := if scoresRaw.isEmpty then fallbackScores else scoresRaw
  let aggregatedScore :=
    if 0 < scores.length then jsRound (scores.sum / (scores.length : ℚ)) else 0
  { categories :=
      [{ name := "Healthy (81-100)", count := countCat scores "Healthy",
         color := "#75BB43", value := "Healthy" },
       { name := "Warning (51-80)", count := countCat scores "Warning",
         color := "#FEC235", value := "Warning" },
       { name := "Error (0-50)", count := countCat scores "Error",
         color := "#BA1A1A", value := "Error" }]
    total := scores.length
    aggregatedScore := aggregatedScore
    allScores := scores
    selectedCategory := none
    measureSlot := measureSlot }

/-- part_002 `handleCategoryClick` of the range variant (lines 2307-2452):
toggles the selection, refilters `allScores`, rewrites total, score and the
per-category counts in place, then posts a `customEvent` followed by
range filters (selected) or an empty filter list (deselected).  The
`count` on the event reads the clicked legend item after the in-place
mutation, so it is the refiltered count of the clicked band. -/
def handleCategoryClick (category : RCategory) (state : RState) : RState × List Msg :=
  let clickedValue := category.value
  let wasSelected := state.selectedCategory = some clickedValue
  let sel : Option String := if wasSelected then none else some clickedValue
  let filteredScores :=
    if selTruthy sel then
      state.allScores.filter (fun s => some (categorizeScore s) = sel)
    else state.allScores
  let newTotal := filteredScores.length
  let newAggregatedScore :=
    if 0 < newTotal then jsRound (filteredScores.sum / (newTotal : ℚ)) else 0
  let newCategories := state.categories.map (fun c =>
    { c with count := countCat filteredScores c.value })
  let ev : CustomEv :=
    { eventType := "statusCategorySelected"
      category := category.name
      count := some ((countCat filteredScores category.value : ℕ) : ℚ)
      totalRecords := some (some (newTotal : ℚ))
      aggregatedScore := some (some (newAggregatedScore : ℚ))
      isFiltered := some sel.isSome }
  let fmsgs :=
    if selTruthy sel && slotFilled state.measureSlot then
      match slotFirstCol state.measureSlot with
      | none => []
      | some column =>
          let filters : List FilterExpr :=
            if clickedValue = "Healthy" then
              [{ expression := "? >= ?", columnId := column.columnId,
                 datasetId := column.datasetId, value := .num 81,
                 origin := "filterFromVizItem", filterType := "where" }]
            else if clickedValue = "Warning" then
              [{ expression := "? >= ?", columnId := column.columnId,
                 datasetId := column.datasetId, value := .num 51,
                 origin := "filterFromVizItem", filterType := "where" },
               { expression := "? <= ?", columnId := column.columnId,
                 datasetId := column.datasetId, value := .num 80,
                 origin := "filterFromVizItem", filterType := "where" }]
            else if clickedValue = "Error" then
              [{ expression := "? < ?", columnId := column.columnId,
                 datasetId := column.datasetId, value := .num 51,
                 origin := "filterFromVizItem", filterType := "where" }]
            else []
          if filters.isEmpty then [] else [Msg.setFilter filters]
    else if !selTruthy sel then [Msg.setFilter []]
    else []
  ({ state with
      categories := newCategories
      total := newTotal
      aggregatedScore := newAggregatedScore
      selectedCategory := sel },
   [Msg.customEvent ev] ++ fmsgs)

end P2R

namespace CCard

/-! ## projects/custom-chart/src/chart.ts: single-card alert widget -/

/-- One alert card (only the fields the click handler reads). -/
structure AlertItem where
  category : String
  count : JsNum
  value : String
deriving DecidableEq

/-- The slice of the card state that the click handler reads and writes. -/
structure CState where
  selectedCategory : Option String
  categorySlot : Option Slot
deriving DecidableEq

/-- chart.ts `handleCardClick` (lines 502-554): toggles the selection,
posts a `customEvent` with `isFiltered: !wasSelected`, then an equality
filter (selected, category slot filled) or an empty filter list
(deselected). -/
def handleCardClick (item : AlertItem) (state : CState) : CState × List Msg :=
  let clickedValue := item.value
  let wasSelected := state.selectedCategory = some clickedValue
  let state' : CState :=
    { state with selectedCategory := if wasSelected then none else some clickedValue }
  let ev : CustomEv :=
    { eventType := "alertSelected"
      category := item.category
      count := item.count
      totalRecords := none
      aggregatedScore := none
      isFiltered := some (!wasSelected) }
  let fmsgs :=
    if !wasSelected && slotFilled state.categorySlot then
      match slotFirstCol state.categorySlot with
      | none => []
      | some column =>
          [Msg.setFilter
            [{ expression := "? = ?", columnId := column.columnId,
               datasetId := column.datasetId, value := .str clickedValue,
               origin := "filterFromVizItem", filterType := "where" }]]
    else if wasSelected then [Msg.setFilter []]
    else []
  (state', [Msg.customEvent ev] ++ fmsgs)

/-- chart.ts `buildQuery` (lines 559-622). -/
def buildQuery (slots : List Slot) : ItemQuery :=
  let categorySlot := findSlot slots "category"
  let measureSlot := findSlot slots "measure"
  let orderSlot := findSlot slots "order"
  if !(slotFilled categorySlot && slotFilled measureSlot) then
    { dimensions := [], measures := [], order := some [] }
  else
    let categoryColumn := (slotFirstCol categorySlot).getD {}
    let measureColumn := (slotFirstCol measureSlot).getD {}
    let dims :=
      [({ datasetId := strOr categoryColumn.datasetId categoryColumn.set
          columnId := strOr categoryColumn.columnId categoryColumn.column
          level := jsNumOr categoryColumn.level (some 1) } : DimSpec)] ++
      (if slotFilled orderSlot then
        let orderColumn := (slotFirstCol orderSlot).getD {}
        [({ datasetId := strOr orderColumn.datasetId orderColumn.set
            columnId := strOr orderColumn.columnId orderColumn.column
            level := some 1 } : DimSpec)]
       else [])
    let meas := [({ datasetId := strOr measureColumn.datasetId measureColumn.set
                    columnId := strOr measureColumn.columnId measureColumn.column
                    aggregation := strOr measureColumn.aggregation (some "sum")
                    format := measureColumn.format } : MeasSpec)]
    { dimensions := dims, measures := meas, order := some [] }

end CCard

/-! ## Helper lemmas -/

theorem P0.processData_selectedCategory (data : List (List JsVal)) (slots : List Slot)
    (colors : List String) (language : String) (sel : Option String) :
    (P0.processData data slots colors language sel).selectedCategory =
      if selTruthy sel then sel else none := rfl

theorem P0.processData_empty_selection (data : List (List JsVal)) (slots : List Slot)
    (colors : List String) (language : String) :
    P0.processData data slots colors language (some "") =
      P0.processData data slots colors language none := rfl

/-! ## The claims -/

/-- C1: for every input dataset, slot configuration and selection state, the
`overallTotal` part_000 `processData` computes equals the sum of `count`
over the returned (unfiltered) `categories` array, and both `overallTotal`
and the `categories` array are computed before selection filtering: they
are unchanged under every selection value, hence under every sequence of
selection toggles. -/
theorem C1_overall_total_invariant (data : List (List JsVal)) (slots : List Slot)
    (colors : List String) (language : String) (sel : Option String) :
    jsSum ((P0.processData data slots colors language sel).categories.map
        (fun c => c.count)) =
      (P0.processData data slots colors language sel).overallTotal ∧
    (P0.processData data slots colors language sel).overallTotal =
      (P0.processData data slots colors language none).overallTotal ∧
    (P0.processData data slots colors language sel).categories =
      (P0.processData data slots colors language none).categories := by
  refine ⟨?_, rfl, rfl⟩
  simp only [P0.processData, List.map_map]
  rfl

/-- C4: starting from the unselected state on fixed input data, clicking a
category and then clicking it again returns the widget to exactly the
pre-selection aggregates — the same total, the same aggregated score and
the same categories array — in part_000 and in the part_002 range
variant. -/
theorem C4_toggle_returns_to_unselected
    (data : List (List JsVal)) (slots : List Slot) (colors : List String)
    (language : String) (cat : P0.StatusCategory)
    (rdata : List (List JsVal)) (rslots : List Slot) (rcat : P2R.RCategory) :
    (let s0 := P0.processData data slots colors language none
     let s1 := (P0.handleCategoryClick data slots colors language cat s0).1
     let s2 := (P0.handleCategoryClick data slots colors language cat s1).1
     s2.total = s0.total ∧ s2.aggregatedScore = s0.aggregatedScore ∧
       s2.categories = s0.categories) ∧
    (let r0 := P2R.processData rdata rslots
     let r1 := (P2R.handleCategoryClick rcat r0).1
     let r2 := (P2R.handleCategoryClick rcat r1).1
     r2.total = r0.total ∧ r2.aggregatedScore = r0.aggregatedScore ∧
       r2.categories = r0.categories) := by
  constructor
  · by_cases hv : cat.value = ""
    · simp only [P0.handleCategoryClick, P0.processData_selectedCategory, hv,
        selTruthy]
      simp [P0.processData_empty_selection]
    · simp only [P0.handleCategoryClick, P0.processData_selectedCategory,
        selTruthy]
      simp [hv]
  · by_cases hv : rcat.value = ""
    · simp [P2R.handleCategoryClick, P2R.processData, selTruthy, hv]
    · simp [P2R.handleCategoryClick, P2R.processData, selTruthy, hv]

/-- C7: in part_000 (category, size and measure slots required), part_001
(measure slot required), the part_002 attribute variant and chart.ts
(category and measure slots required), a missing or empty required slot
makes `buildQuery` return the empty query — `dimensions = []` and
`measures = []`.  The builders are total functions: no input makes them
fail. -/
theorem C7_missing_slots_empty_query (slots : List Slot) :
    ((slotFilled (findSlot slots "category") && slotFilled (findSlot slots "size") &&
        slotFilled (findSlot slots "measure")) = false →
      (P0.buildQuery slots).dimensions = [] ∧ (P0.buildQuery slots).measures = []) ∧
    (slotFilled (findSlot slots "measure") = false →
      (P1.buildQuery slots).dimensions = [] ∧ (P1.buildQuery slots).measures = []) ∧
    ((slotFilled (findSlot slots "category") &&
        slotFilled (findSlot slots "measure")) = false →
      (P2A.buildQuery slots).dimensions = [] ∧ (P2A.buildQuery slots).measures = []) ∧
    ((slotFilled (findSlot slots "category") &&
        slotFilled (findSlot slots "measure")) = false →
      (CCard.buildQuery slots).dimensions = [] ∧ (CCard.buildQuery slots).measures = []) := by
  refine ⟨fun h => ?_, fun h => ?_, fun h => ?_, fun h => ?_⟩ <;>
    simp [P0.buildQuery, P1.buildQuery, P2A.buildQuery, CCard.buildQuery, h]

/-- C7 witness: with no slots at all, every builder returns the empty
query. -/
theorem C7_missing_slots_empty_query_witness :
    (P0.buildQuery []).dimensions = [] ∧ (P0.buildQuery []).measures = [] ∧
    (P1.buildQuery []).dimensions = [] ∧ (P1.buildQuery []).measures = [] ∧
    (P2A.buildQuery []).dimensions = [] ∧ (P2A.buildQuery []).measures = [] ∧
    (CCard.buildQuery []).dimensions = [] ∧ (CCard.buildQuery []).measures = [] := by
  obtain ⟨h0, h1, h2, h3⟩ := C7_missing_slots_empty_query []
  exact ⟨(h0 rfl).1, (h0 rfl).2, (h1 rfl).1, (h1 rfl).2, (h2 rfl).1, (h2 rfl).2,
    (h3 rfl).1, (h3 rfl).2⟩

/-- C3 counterexample: the claim closes the Warning band at 80 and the
Error band at 50, leaving every fractional score in (50, 51) and (80, 81)
outside all three stated bands; the code still maps such a score — here
80.5 — to a band (Warning), so the stated bands do not partition the
numeric scores. -/
theorem C3_counterexample :
    P1.categorizeScore (161 / 2) = "Warning" ∧
    ¬ (81 ≤ (161 : ℚ) / 2) ∧
    ¬ (51 ≤ (161 : ℚ) / 2 ∧ (161 : ℚ) / 2 ≤ 80) ∧
    ¬ ((161 : ℚ) / 2 ≤ 50) := by
  refine ⟨?_, by norm_num, by norm_num, by norm_num⟩
  norm_num [P1.categorizeScore]

/-- C3 amended: the bands realized by `categorizeScore` are score ≥ 81 →
"Healthy", 51 ≤ score < 81 → "Warning", score < 51 → "Error" — inclusive
at 81 and 51, pairwise disjoint and exhaustive over all numeric scores,
agreeing with the claim at every integer (in particular 80 → Warning,
81 → Healthy, 50 → Error, 51 → Warning); part_002 realizes the same
function. -/
theorem C3_band_characterization (s : ℚ) :
    (P1.categorizeScore s = "Healthy" ↔ 81 ≤ s) ∧
    (P1.categorizeScore s = "Warning" ↔ 51 ≤ s ∧ s < 81) ∧
    (P1.categorizeScore s = "Error" ↔ s < 51) ∧
    P2R.categorizeScore s = P1.categorizeScore s ∧
    P1.categorizeScore 80 = "Warning" ∧ P1.categorizeScore 81 = "Healthy" ∧
    P1.categorizeScore 50 = "Error" ∧ P1.categorizeScore 51 = "Warning" := by
  refine ⟨?_, ?_, ?_, rfl, by norm_num [P1.categorizeScore],
    by norm_num [P1.categorizeScore], by norm_num [P1.categorizeScore],
    by norm_num [P1.categorizeScore]⟩ <;>
  · unfold P1.categorizeScore
    split_ifs with h1 h2 <;> simp_all <;> first | linarith | constructor <;> linarith

/-- C8 counterexample: on the fallback sample scores
[95,87,92,78,65,45,32,88,91,56,72,38] the range widget produces counts
Healthy=5, Warning=4, Error=3 (95, 87, 92, 88, 91 are ≥ 81 — five scores,
not six) and aggregated score round(839/12) = 70, not the claimed
6/4/2 and 72. -/
theorem C8_counterexample :
    ((P1.processData [] []).categories.map (fun c => c.count) = [5, 4, 3] ∧
     (P1.processData [] []).aggregatedScore = 70) ∧
    ¬ ((P1.processData [] []).categories.map (fun c => c.count) = [6, 4, 2] ∧
       (P1.processData [] []).aggregatedScore = 72) := by
  have hs : (P1.processData [] []).aggregatedScore =
      jsRound (P1.fallbackScores.sum / (P1.fallbackScores.length : ℚ)) := rfl
  have h70 : (P1.processData [] []).aggregatedScore = 70 := by
    rw [hs]
    norm_num [P1.fallbackScores, jsRound]
  refine ⟨⟨by decide, h70⟩, fun h => ?_⟩
  rw [h70] at h
  exact absurd h.2 (by norm_num)

/-- C8 amended: processing the fallback input scores
[95,87,92,78,65,45,32,88,91,56,72,38] (12 rows) yields counts Healthy=5,
Warning=4, Error=2+1=3, and the displayed aggregated score equals
round(mean of the 12 scores) = round(839/12) = 70. -/
theorem C8_fallback_sample_aggregates :
    (P1.processData [] []).categories.map (fun c => (c.value, c.count)) =
      [("Healthy", 5), ("Warning", 4), ("Error", 3)] ∧
    (P1.processData [] []).total = 12 ∧
    (P1.processData [] []).aggregatedScore = jsRound (P1.fallbackScores.sum / 12) ∧
    (P1.processData [] []).aggregatedScore = 70 := by
  have hs : (P1.processData [] []).aggregatedScore =
      jsRound (P1.fallbackScores.sum / (P1.fallbackScores.length : ℚ)) := rfl
  have hlen : ((P1.fallbackScores.length : ℕ) : ℚ) = 12 := by
    norm_num [P1.fallbackScores]
  refine ⟨by decide, by decide, ?_, ?_⟩
  · rw [hs, hlen]
  · rw [hs]
    norm_num [P1.fallbackScores, jsRound]

/-! ## Reduction of the aggregator on numeric data -/

theorem foldl_jsAdd_some {α : Type} (g : α → JsNum) (g' : α → ℚ) (l : List α) :
    (∀ a ∈ l, g a = some (g' a)) → ∀ q : ℚ,
      (l.map g).foldl jsAdd (some q) = some (q + (l.map g').sum) := by
  induction l with
  | nil => intro _ q; simp
  | cons a t ih =>
      intro h q
      have ha : g a = some (g' a) := h a (by simp)
      simp only [List.map_cons, List.foldl_cons, ha, jsAdd]
      rw [ih (fun x hx => h x (by simp [hx])) (q + g' a)]
      rw [List.sum_cons, add_assoc]

theorem jsSum_map_eq {α : Type} (g : α → JsNum) (g' : α → ℚ) (l : List α)
    (h : ∀ a ∈ l, g a = some (g' a)) :
    jsSum (l.map g) = some ((l.map g').sum) := by
  have := foldl_jsAdd_some g g' l h 0
  simpa [jsSum] using this

/-- On a working set whose counts and averages are all numeric, part_000
`calculateAggregatedScore` is round(Σ(count·avg)/Σcount) under a positive
total and 0 otherwise. -/
theorem P0.calcAgg_some (cats : List String) (f : String → P0.CatData)
    (cnt av : String → ℚ)
    (hc : ∀ c ∈ cats, (f c).count = some (cnt c))
    (ha : ∀ c ∈ cats, (f c).avgScore = some (av c)) :
    P0.calculateAggregatedScore cats f =
      some (if 0 < (cats.map cnt).sum
            then ((jsRound ((cats.map (fun c => cnt c * av c)).sum /
                (cats.map cnt).sum) : ℤ) : ℚ)
            else 0) := by
  have htot : jsSum (cats.map (fun c => (f c).count)) = some ((cats.map cnt).sum) :=
    jsSum_map_eq _ _ _ hc
  have hws : jsSum (cats.map (fun c => jsMul (f c).count (f c).avgScore)) =
      some ((cats.map (fun c => cnt c * av c)).sum) := by
    apply jsSum_map_eq
    intro c hcm
    rw [hc c hcm, ha c hcm]
    rfl
  unfold P0.calculateAggregatedScore
  rw [htot, hws]
  by_cases hS : 0 < (cats.map cnt).sum
  · simp [jsGtZero, hS, jsDiv, jsRoundNum, ne_of_gt hS]
  · simp [jsGtZero, hS]

/-- C2 counterexample: a pre-aggregated row whose average-score cell is a
non-numeric string ("abc", `Number` coercion NaN) leaves the working set
with positive total count 5 but drives the aggregated score to NaN
(modelled as `none`) — refuting "never NaN". -/
theorem C2_counterexample :
    (P0.processData
        [[JsVal.str "A" none, JsVal.num (some 5), JsVal.str "abc" none]]
        [⟨"category", [{}]⟩, ⟨"size", [{}]⟩, ⟨"measure", [{}]⟩]
        [] "en" none).aggregatedScore = none ∧
    (P0.processData
        [[JsVal.str "A" none, JsVal.num (some 5), JsVal.str "abc" none]]
        [⟨"category", [{}]⟩, ⟨"size", [{}]⟩, ⟨"measure", [{}]⟩]
        [] "en" none).overallTotal = some 5 := by
  constructor
  · have h : (P0.processData
        [[JsVal.str "A" none, JsVal.num (some 5), JsVal.str "abc" none]]
        [⟨"category", [{}]⟩, ⟨"size", [{}]⟩, ⟨"measure", [{}]⟩]
        [] "en" none).aggregatedScore =
        if jsGtZero (jsSum [some 5]) then
          jsRoundNum (jsDiv (jsSum [jsMul (some 5) none]) (jsSum [some 5]))
        else some 0 := rfl
    rw [h]
    simp [jsSum, jsAdd, jsMul, jsGtZero, jsDiv, jsRoundNum]
  · have h : (P0.processData
        [[JsVal.str "A" none, JsVal.num (some 5), JsVal.str "abc" none]]
        [⟨"category", [{}]⟩, ⟨"size", [{}]⟩, ⟨"measure", [{}]⟩]
        [] "en" none).overallTotal = jsSum [some 5] := rfl
    rw [h]
    simp [jsSum, jsAdd]

/-- C2 amended: over a working set whose counts and average values are all
numeric (non-NaN), the aggregator returns exactly
round(Σ(count·averageValue)/Σcount) when Σcount > 0 and 0 when Σcount ≤ 0,
and in particular is never NaN; with a NaN average and positive total the
code does return NaN (see the counterexample). -/
theorem C2_weighted_score_formula (cats : List String) (f : String → P0.CatData)
    (cnt av : String → ℚ)
    (hc : ∀ c ∈ cats, (f c).count = some (cnt c))
    (ha : ∀ c ∈ cats, (f c).avgScore = some (av c)) :
    P0.calculateAggregatedScore cats f =
      some (if 0 < (cats.map cnt).sum
            then ((jsRound ((cats.map (fun c => cnt c * av c)).sum /
                (cats.map cnt).sum) : ℤ) : ℚ)
            else 0) ∧
    (P0.calculateAggregatedScore cats f).isSome = true := by
  have hmain := P0.calcAgg_some cats f cnt av hc ha
  exact ⟨hmain, by rw [hmain]; rfl⟩

/-- C2 witness: a singleton working set with count 2 and average 10 gives a
defined (non-NaN) score. -/
theorem C2_weighted_score_formula_witness :
    (P0.calculateAggregatedScore ["A"]
      (fun _ => ⟨some 2, some 10⟩)).isSome = true := by
  have h := C2_weighted_score_formula ["A"] (fun _ => ⟨some 2, some 10⟩)
    (fun _ => 2) (fun _ => 10) (fun c hcm => rfl) (fun c hcm => rfl)
  exact h.2

/-- C9 counterexample: the working set {A} with count 1 and averageValue
1/2 has min = max = 1/2, but the rounded weighted score is 1 > 1/2 — the
claimed bound `weightedScore ≤ max averageValue` fails. -/
theorem C9_counterexample :
    P0.calculateAggregatedScore ["A"] (fun _ => ⟨some 1, some (1 / 2)⟩) = some 1 ∧
    ¬ ((1 : ℚ) ≤ 1 / 2) := by
  constructor
  · have h : P0.calculateAggregatedScore ["A"] (fun _ => ⟨some 1, some (1 / 2)⟩) =
        if jsGtZero (jsSum [some 1]) then
          jsRoundNum (jsDiv (jsSum [jsMul (some 1) (some (1 / 2))]) (jsSum [some 1]))
        else some 0 := rfl
    rw [h]
    norm_num [jsSum, jsAdd, jsMul, jsGtZero, jsDiv, jsRoundNum, jsRound]
  · norm_num

theorem jsRound_le_jsRound {a b : ℚ} (h : a ≤ b) : jsRound a ≤ jsRound b := by
  unfold jsRound
  exact Int.floor_le_floor (by linarith)

/-- C9 amended: over a working set with numeric data, nonnegative counts
and positive total count, the weighted score is an integer bounded by the
rounds of any lower and upper bound of the working set averages — in
particular round(min averageValue) ≤ weightedScore ≤ round(max
averageValue); the unrounded claim fails by up to one half (see the
counterexample). -/
theorem C9_weighted_score_bounds (cats : List String) (f : String → P0.CatData)
    (cnt av : String → ℚ) (lo hi : ℚ)
    (hc : ∀ c ∈ cats, (f c).count = some (cnt c))
    (ha : ∀ c ∈ cats, (f c).avgScore = some (av c))
    (hnn : ∀ c ∈ cats, 0 ≤ cnt c)
    (hpos : 0 < (cats.map cnt).sum)
    (hlo : ∀ c ∈ cats, lo ≤ av c)
    (hhi : ∀ c ∈ cats, av c ≤ hi) :
    ∃ n : ℤ, P0.calculateAggregatedScore cats f = some (n : ℚ) ∧
      jsRound lo ≤ n ∧ n ≤ jsRound hi := by
  have hmain := P0.calcAgg_some cats f cnt av hc ha
  rw [hmain, if_pos hpos]
  refine ⟨_, rfl, ?_, ?_⟩
  · apply jsRound_le_jsRound
    rw [le_div_iff₀ hpos]
    calc lo * (cats.map cnt).sum = (cats.map (fun c => cnt c * lo)).sum := by
          rw [List.sum_map_mul_right]; ring
      _ ≤ (cats.map (fun c => cnt c * av c)).sum := by
          apply List.sum_le_sum
          intro c hcm
          exact mul_le_mul_of_nonneg_left (hlo c hcm) (hnn c hcm)
  · apply jsRound_le_jsRound
    rw [div_le_iff₀ hpos]
    calc (cats.map (fun c => cnt c * av c)).sum
        ≤ (cats.map (fun c => cnt c * hi)).sum := by
          apply List.sum_le_sum
          intro c hcm
          exact mul_le_mul_of_nonneg_left (hhi c hcm) (hnn c hcm)
      _ = hi * (cats.map cnt).sum := by rw [List.sum_map_mul_right]; ring

/-- C9 witness: the singleton working set {A} with count 2 and average 3
has its score bounded by round(3) on both sides. -/
theorem C9_weighted_score_bounds_witness :
    ∃ n : ℤ, P0.calculateAggregatedScore ["A"] (fun _ => ⟨some 2, some 3⟩) =
      some (n : ℚ) ∧ jsRound 3 ≤ n ∧ n ≤ jsRound 3 := by
  apply C9_weighted_score_bounds ["A"] (fun _ => ⟨some 2, some 3⟩)
    (fun _ => 2) (fun _ => 3) 3 3
  · intro c hcm; rfl
  · intro c hcm; rfl
  · intro c hcm; norm_num
  · simp
  · intro c hcm; exact le_refl 3
  · intro c hcm; exact le_refl 3

/-- Does a posted message list contain a `setFilter` with an empty filter
list? -/
def hasEmptySetFilter (msgs : List Msg) : Bool :=
  msgs.any (fun m => match m with
    | .setFilter [] => true
    | _ => false)

/-- Does every `customEvent` of a posted message list report
`isFiltered: false`? -/
def eventsReportUnfiltered (msgs : List Msg) : Bool :=
  msgs.all (fun m => match m with
    | .customEvent e => decide (e.isFiltered = some false)
    | _ => true)

/-- C5: in every variant that keeps toggle-selection state (part_000, the
part_002 attribute and range variants, chart.ts), a click that transitions
the selection to Unselected — re-clicking the currently selected category —
posts a `setFilter` message whose filters list is empty and a `customEvent`
whose `isFiltered` field is false.  part_001 keeps no selection state, so
no click of its handler transitions to Unselected and the claim is vacuous
there. -/
theorem C5_unselect_emits_empty_filter
    (data : List (List JsVal)) (slots : List Slot) (colors : List String)
    (language : String) (cat : P0.StatusCategory) (st : P0.ChartState)
    (acat : P2A.ACategory) (ast : P2A.AState)
    (rcat : P2R.RCategory) (rst : P2R.RState)
    (item : CCard.AlertItem) (cst : CCard.CState) :
    (st.selectedCategory = some cat.value →
      hasEmptySetFilter (P0.handleCategoryClick data slots colors language cat st).2
          = true ∧
      eventsReportUnfiltered
          (P0.handleCategoryClick data slots colors language cat st).2 = true) ∧
    (ast.selectedCategory = some acat.value →
      hasEmptySetFilter (P2A.handleCategoryClick acat ast).2 = true ∧
      eventsReportUnfiltered (P2A.handleCategoryClick acat ast).2 = true) ∧
    (rst.selectedCategory = some rcat.value →
      hasEmptySetFilter (P2R.handleCategoryClick rcat rst).2 = true ∧
      eventsReportUnfiltered (P2R.handleCategoryClick rcat rst).2 = true) ∧
    (cst.selectedCategory = some item.value →
      hasEmptySetFilter (CCard.handleCardClick item cst).2 = true ∧
      eventsReportUnfiltered (CCard.handleCardClick item cst).2 = true) := by
  refine ⟨fun h => ?_, fun h => ?_, fun h => ?_, fun h => ?_⟩
  · constructor <;>
      simp [P0.handleCategoryClick, h, P0.processData_selectedCategory, selTruthy,
        hasEmptySetFilter, eventsReportUnfiltered]
  · constructor <;>
      simp [P2A.handleCategoryClick, h, selTruthy, hasEmptySetFilter,
        eventsReportUnfiltered]
  · constructor <;>
      simp [P2R.handleCategoryClick, h, selTruthy, hasEmptySetFilter,
        eventsReportUnfiltered]
  · constructor <;>
      simp [CCard.handleCardClick, h, selTruthy, hasEmptySetFilter,
        eventsReportUnfiltered]

/-- C5 witness: deselecting the selected category "X" posts an empty
filter list in each of the four toggling variants. -/
theorem C5_unselect_emits_empty_filter_witness :
    hasEmptySetFilter (P0.handleCategoryClick [] [] [] "en"
      ⟨"X", none, none, none, none, "X"⟩
      ⟨[], none, none, none, none, some "X", []⟩).2 = true ∧
    hasEmptySetFilter (P2A.handleCategoryClick ⟨"X", none, "X"⟩
      ⟨none, some "X", none⟩).2 = true ∧
    hasEmptySetFilter (P2R.handleCategoryClick ⟨"X", 0, "", "X"⟩
      ⟨[], 0, 0, [], some "X", none⟩).2 = true ∧
    hasEmptySetFilter (CCard.handleCardClick ⟨"X", none, "X"⟩
      ⟨some "X", none⟩).2 = true := by
  obtain ⟨h0, h1, h2, h3⟩ := C5_unselect_emits_empty_filter [] [] [] "en"
    ⟨"X", none, none, none, none, "X"⟩ ⟨[], none, none, none, none, some "X", []⟩
    ⟨"X", none, "X"⟩ ⟨none, some "X", none⟩
    ⟨"X", 0, "", "X"⟩ ⟨[], 0, 0, [], some "X", none⟩
    ⟨"X", none, "X"⟩ ⟨some "X", none⟩
  exact ⟨(h0 rfl).1, (h1 rfl).1, (h2 rfl).1, (h3 rfl).1⟩

/-- The color-resolution rule as the claim states it, written from the
spec text: an order value indexes the palette first; otherwise one of the
fixed semantic names ("Healthy", "Warning", "Error") uses the fixed
name-to-color table; otherwise the rank of the key in the sorted key list
indexes the palette.  To be compared against the resolvers of the code. -/
def specResolveColor (key : String) (orderMap : List (String × ℚ))
    (hasOrderColumn : Bool) (palette : List String) (sortedKeys : List String) :
    Option String :=
  match hasOrderColumn, lookupA orderMap key with
  | true, some v => jsIndex palette (ratTMod v (palette.length : ℚ))
  | _, _ =>
      if key = "Healthy" then some "#75BB43"
      else if key = "Warning" then some "#FEC325"
      else if key = "Error" then some "#BA1A1A"
      else palette.get? (sortedKeys.indexOf key % palette.length)

theorem lookupA_enumFrom_map {β : Type} (g : ℕ → String → β) :
    ∀ (l : List String) (n i : ℕ) (key : String), l.Nodup → l.get? i = some key →
      lookupA ((l.enumFrom n).map (fun p => (p.2, g p.1 p.2))) key =
        some (g (n + i) key) := by
  intro l
  induction l with
  | nil => intro n i key _ hget; simp at hget
  | cons a t ih =>
      intro n i key hnd hget
      match i with
      | 0 =>
          have hk : a = key := by simpa using hget
          subst hk
          simp [lookupA, List.enumFrom]
      | j + 1 =>
          have hget' : t.get? j = some key := by simpa using hget
          have hmem : key ∈ t := List.get?_mem hget'
          have hne : a ≠ key := fun h => (List.nodup_cons.mp hnd).1 (h ▸ hmem)
          have := ih (n + 1) j key (List.nodup_cons.mp hnd).2 hget'
          simp only [List.enumFrom, List.map_cons, lookupA, List.find?]
          rw [show (decide (a = key)) = false by simp [hne]]
          simp only [lookupA] at this
          have harith : n + (j + 1) = n + 1 + j := by omega
          rw [harith]
          exact this

/-- Looking up a value of the list in the color map built by part_002
`assignColors` reads exactly the color its position determines. -/
theorem P2A.assignColors_lookup (uniqueValues : List String)
    (config : P2A.ComponentConfig) (orders : List (String × ℚ)) (hasOrder : Bool)
    (i : ℕ) (key : String) (hnd : uniqueValues.Nodup)
    (hget : uniqueValues.get? i = some key) :
    lookupA (P2A.assignColors uniqueValues config orders hasOrder) key =
      some (P2A.colorFor config orders hasOrder i key) := by
  have h := lookupA_enumFrom_map (P2A.colorFor config orders hasOrder)
    uniqueValues 0 i key hnd hget
  simpa [P2A.assignColors, List.enum] using h

/-- C6 counterexample: in the part_002 attribute variant with no order
column, the key "Healthy" in the sorted value list ["Aaa", "Healthy"] is
colored by its position — palette[1] = "#BA1A1A" (red) — while the claimed
precedence would use the fixed semantic table and give "#75BB43" (green).
The fixed name table never enters that resolver. -/
theorem C6_counterexample :
    lookupA (P2A.assignColors ["Aaa", "Healthy"] P2A.defaultConfig [] false) "Healthy"
      = some (some "#BA1A1A") ∧
    specResolveColor "Healthy" [] false P2A.defaultConfig.colors ["Aaa", "Healthy"]
      = some "#75BB43" ∧
    ("#BA1A1A" : String) ≠ "#75BB43" := by
  refine ⟨by decide, by decide, by decide⟩

/-- C6 amended: the precedence is per variant.  part_000
`getCategoryColor`: an available order value indexes the fixed three-color
palette; otherwise the fixed name table applies with green as default —
the position of the key never enters (it is not an input of the function).
part_002 `assignColors`: an available order value indexes the palette;
otherwise the position of the key in the value list as passed (display order)
indexes the palette — the fixed name table never enters. -/
theorem C6_color_resolution_precedence
    (key : String) (orders : List (String × ℚ)) (v : ℚ)
    (uniqueValues : List String) (config : P2A.ComponentConfig)
    (hasOrder : Bool) (i : ℕ) :
    (P0.getCategoryColor key orders false =
      some (if key = "Healthy" then "#75BB43"
            else if key = "Warning" then "#FEC325"
            else if key = "Error" then "#BA1A1A" else "#75BB43")) ∧
    (lookupA orders key = some v →
      P0.getCategoryColor key orders true =
        jsIndex ["#75BB43", "#FEC325", "#BA1A1A"] (ratTMod v 3)) ∧
    (lookupA orders key = none →
      P0.getCategoryColor key orders true =
        some (if key = "Healthy" then "#75BB43"
              else if key = "Warning" then "#FEC325"
              else if key = "Error" then "#BA1A1A" else "#75BB43")) ∧
    (uniqueValues.Nodup → uniqueValues.get? i = some key → hasOrder = true →
      lookupA orders key = some v →
      lookupA (P2A.assignColors uniqueValues config orders hasOrder) key =
        some (jsIndex config.colors (ratTMod v (config.colors.length : ℚ)))) ∧
    (uniqueValues.Nodup → uniqueValues.get? i = some key →
      (hasOrder = false ∨ lookupA orders key = none) →
      lookupA (P2A.assignColors uniqueValues config orders hasOrder) key =
        some (config.colors.get? (i % config.colors.length))) := by
  refine ⟨rfl, fun h => ?_, fun h => ?_, fun hnd hget ho hv => ?_,
    fun hnd hget hcase => ?_⟩
  · simp [P0.getCategoryColor, h]
  · simp [P0.getCategoryColor, h]
  · rw [P2A.assignColors_lookup uniqueValues config orders hasOrder i key hnd hget]
    subst ho
    simp [P2A.colorFor, hv]
  · rw [P2A.assignColors_lookup uniqueValues config orders hasOrder i key hnd hget]
    rcases hcase with hF | hN
    · subst hF; simp [P2A.colorFor]
    · cases hasOrder <;> simp [P2A.colorFor, hN]

/-- C6 witness: the amended precedence evaluated at concrete inputs — a
name-table default in part_000, an order-indexed color in both resolvers,
and a position-indexed color in part_002. -/
theorem C6_color_resolution_precedence_witness :
    P0.getCategoryColor "Zebra" [] false = some "#75BB43" ∧
    P0.getCategoryColor "A" [("A", 1)] true =
      jsIndex ["#75BB43", "#FEC325", "#BA1A1A"] (ratTMod 1 3) ∧
    lookupA (P2A.assignColors ["A"] P2A.defaultConfig [("A", 1)] true) "A" =
      some (jsIndex P2A.defaultConfig.colors
        (ratTMod 1 (P2A.defaultConfig.colors.length : ℚ))) ∧
    lookupA (P2A.assignColors ["A"] P2A.defaultConfig [] false) "A" =
      some (P2A.defaultConfig.colors.get? (0 % P2A.defaultConfig.colors.length)) := by
  have hA := C6_color_resolution_precedence "A" [("A", 1)] 1 ["A"]
    P2A.defaultConfig true 0
  have hB := C6_color_resolution_precedence "Zebra" [] 0 ["A"]
    P2A.defaultConfig false 0
  have hC := C6_color_resolution_precedence "A" [] 0 ["A"]
    P2A.defaultConfig false 0
  refine ⟨?_, ?_, ?_, ?_⟩
  · have h := hB.1
    simpa using h
  · exact hA.2.1 (by decide)
  · exact hA.2.2.2.1 (by decide) (by decide) rfl (by decide)
  · exact hC.2.2.2.2 (by decide) (by decide) (Or.inl rfl)

/-! ## Duplicate-key resolution inside the processData folds -/

theorem lookupA_cons {α : Type} (a : String) (b : α) (t : List (String × α))
    (k : String) :
    lookupA ((a, b) :: t) k = if a = k then some b else lookupA t k := by
  simp only [lookupA, List.find?]
  by_cases h : a = k <;> simp [h]

theorem lookupA_upsert {α : Type} :
    ∀ (m : List (String × α)) (k k' : String) (v : α),
      lookupA (upsert m k v) k' = if k' = k then some v else lookupA m k' := by
  intro m
  induction m with
  | nil =>
      intro k k' v
      rw [show upsert ([] : List (String × α)) k v = [(k, v)] from rfl, lookupA_cons]
      by_cases h : k' = k
      · subst h; simp
      · rw [if_neg (Ne.symm h), if_neg h]
  | cons p t ih =>
      intro k k' v
      obtain ⟨a, b⟩ := p
      by_cases hak : a = k
      · subst hak
        rw [show upsert ((a, b) :: t) a v = (a, v) :: t by simp [upsert],
          lookupA_cons, lookupA_cons]
        by_cases h : k' = a
        · subst h; simp
        · simp [h, Ne.symm h]
      · rw [show upsert ((a, b) :: t) k v = (a, b) :: upsert t k v by
            simp [upsert, hak],
          lookupA_cons, lookupA_cons, ih k k' v]
        by_cases h2 : a = k'
        · have hk : ¬ k' = k := fun hh => hak (h2.trans hh)
          simp [h2, hk]
        · simp [h2]

theorem upsert_ne_nil {α : Type} (m : List (String × α)) (k : String) (v : α) :
    upsert m k v ≠ [] := by
  cases m with
  | nil => simp [upsert]
  | cons p t =>
      obtain ⟨a, b⟩ := p
      simp only [upsert]
      split <;> simp

/-- The category key one part_000 data row contributes. -/
def P0.rowKey (language : String) (row : List JsVal) : String :=
  P0.extractCategoryName (rowCell row 0) language

/-- The `{count, avgScore}` one part_000 data row contributes. -/
def P0.rowValue (hasOrder : Bool) (row : List JsVal) : P0.CatData :=
  ⟨P0.extractValue (if hasOrder then rowCell row 2 else rowCell row 1),
   P0.extractValue (if hasOrder then rowCell row 3 else rowCell row 2)⟩

/-- The status key one part_002 attribute-variant data row contributes. -/
def P2A.rowKey (language : String) (row : List JsVal) : String :=
  P2A.statusValueOf (rowCell row 0) language

/-- The measure value one part_002 attribute-variant data row
contributes. -/
def P2A.rowMeasure (hasOrder : Bool) (row : List JsVal) : JsNum :=
  P2A.measureValueOf (if hasOrder then rowCell row 2 else rowCell row 1)

/-- The non-NaN order value one part_002 attribute-variant data row
contributes, if any. -/
def P2A.rowOrder (hasOrder : Bool) (row : List JsVal) : Option ℚ :=
  match P2A.orderValueOf (if hasOrder then rowCell row 1 else JsVal.undefined) with
  | some (some q) => some q
  | _ => none

/-- Left-fold minimum over a list of candidates, starting from nothing:
the smallest candidate, or `none` when there is none. -/
def minFold : Option ℚ → List ℚ → Option ℚ
  | acc, [] => acc
  | none, x :: t => minFold (some x) t
  | some a, x :: t => minFold (some (min a x)) t

theorem minFold_append (l₁ l₂ : List ℚ) :
    ∀ acc, minFold acc (l₁ ++ l₂) = minFold (minFold acc l₁) l₂ := by
  induction l₁ with
  | nil =>
      intro acc
      rw [List.nil_append]
      cases acc <;> rfl
  | cons x t ih =>
      intro acc
      cases acc with
      | none => simpa [minFold] using ih (some x)
      | some a => simpa [minFold] using ih (some (min a x))

/-- part_000: within one processData run the fold over the rows keeps, for
every category key, exactly the count/average of the LAST row naming that
key. -/
theorem P0.foldCD_lookup (hasOrder : Bool) (language : String)
    (data : List (List JsVal)) (k : String) :
    lookupA (data.foldl (P0.processRow hasOrder language) ([], [])).1 k =
      ((data.filter (fun row => P0.rowKey language row = k)).getLast?).map
        (P0.rowValue hasOrder) := by
  induction data using List.reverseRecOn with
  | nil => rfl
  | append_singleton l r ih =>
      rw [List.foldl_append, List.foldl_cons, List.foldl_nil]
      rw [show (P0.processRow hasOrder language
            (l.foldl (P0.processRow hasOrder language) ([], [])) r).1 =
          upsert (l.foldl (P0.processRow hasOrder language) ([], [])).1
            (P0.rowKey language r) (P0.rowValue hasOrder r) from rfl]
      rw [lookupA_upsert, List.filter_append]
      by_cases hk : P0.rowKey language r = k
      · rw [if_pos hk.symm]
        rw [show List.filter (fun row => decide (P0.rowKey language row = k)) [r] =
            [r] by simp [hk]]
        rw [List.getLast?_concat]
        rfl
      · rw [if_neg (fun hh => hk hh.symm)]
        rw [show List.filter (fun row => decide (P0.rowKey language row = k)) [r] =
            [] by simp [hk]]
        rw [List.append_nil]
        exact ih

/-- part_002 attribute variant: the fold keeps, for every status key,
exactly the measure of the LAST row naming that key. -/
theorem P2A.foldSM_lookup (hasOrder : Bool) (language : String)
    (data : List (List JsVal)) (k : String) :
    lookupA (data.foldl (P2A.processRow hasOrder language) ([], [])).1 k =
      ((data.filter (fun row => P2A.rowKey language row = k)).getLast?).map
        (P2A.rowMeasure hasOrder) := by
  induction data using List.reverseRecOn with
  | nil => rfl
  | append_singleton l r ih =>
      rw [List.foldl_append, List.foldl_cons, List.foldl_nil]
      rw [show (P2A.processRow hasOrder language
            (l.foldl (P2A.processRow hasOrder language) ([], [])) r).1 =
          upsert (l.foldl (P2A.processRow hasOrder language) ([], [])).1
            (P2A.rowKey language r) (P2A.rowMeasure hasOrder r) from rfl]
      rw [lookupA_upsert, List.filter_append]
      by_cases hk : P2A.rowKey language r = k
      · rw [if_pos hk.symm]
        rw [show List.filter (fun row => decide (P2A.rowKey language row = k)) [r] =
            [r] by simp [hk]]
        rw [List.getLast?_concat]
        rfl
      · rw [if_neg (fun hh => hk hh.symm)]
        rw [show List.filter (fun row => decide (P2A.rowKey language row = k)) [r] =
            [] by simp [hk]]
        rw [List.append_nil]
        exact ih

/-- One step of the part_002 attribute fold, seen through a key lookup on
`statusOrders`: a row with a non-NaN order for key `k` lowers the stored
value to the minimum, any other row leaves it unchanged. -/
theorem P2A.processRow_orders (hasOrder : Bool) (language : String)
    (acc : List (String × JsNum) × List (String × ℚ)) (row : List JsVal)
    (k : String) :
    lookupA (P2A.processRow hasOrder language acc row).2 k =
      match P2A.rowOrder hasOrder row with
      | none => lookupA acc.2 k
      | some q =>
          if P2A.rowKey language row = k then
            match lookupA acc.2 k with
            | none => some q
            | some cur => some (min cur q)
          else lookupA acc.2 k := by
  rcases hov : P2A.orderValueOf (if hasOrder then rowCell row 1 else JsVal.undefined)
    with _ | qn
  · have hro : P2A.rowOrder hasOrder row = none := by simp [P2A.rowOrder, hov]
    have hstep : (P2A.processRow hasOrder language acc row).2 = acc.2 := by
      simp [P2A.processRow, hov]
    rw [hstep, hro]
  · match qn with
    | none =>
        have hro : P2A.rowOrder hasOrder row = none := by simp [P2A.rowOrder, hov]
        have hstep : (P2A.processRow hasOrder language acc row).2 = acc.2 := by
          simp [P2A.processRow, hov]
        rw [hstep, hro]
    | some q =>
        have hro : P2A.rowOrder hasOrder row = some q := by simp [P2A.rowOrder, hov]
        have hstep : (P2A.processRow hasOrder language acc row).2 =
            match lookupA acc.2 (P2A.rowKey language row) with
            | none => upsert acc.2 (P2A.rowKey language row) q
            | some cur =>
                if q < cur then upsert acc.2 (P2A.rowKey language row) q else acc.2 := by
          simp [P2A.processRow, P2A.rowKey, hov]
        by_cases hk : P2A.rowKey language row = k
        · subst hk
          simp only [hstep, hro, if_pos rfl]
          rcases hcur : lookupA acc.2 (P2A.rowKey language row) with _ | cur
          · simp [lookupA_upsert]
          · by_cases hq : q < cur
            · simp [hq, lookupA_upsert, min_eq_right (le_of_lt hq)]
            · simp [hq, hcur, min_eq_left (not_lt.mp hq)]
        · simp only [hstep, hro, if_neg hk]
          rcases hcur : lookupA acc.2 (P2A.rowKey language row) with _ | cur
          · simp [lookupA_upsert, Ne.symm hk]
          · by_cases hq : q < cur <;>
              simp [hq, hcur, lookupA_upsert, Ne.symm hk]

/-- part_002 attribute variant: the order value the fold retains for a key
is the smallest non-NaN order value seen across all its rows. -/
theorem P2A.foldSO_lookup (hasOrder : Bool) (language : String)
    (data : List (List JsVal)) (k : String) :
    lookupA (data.foldl (P2A.processRow hasOrder language) ([], [])).2 k =
      minFold none (data.filterMap (fun row =>
        if P2A.rowKey language row = k then P2A.rowOrder hasOrder row else none)) := by
  induction data using List.reverseRecOn with
  | nil => rfl
  | append_singleton l r ih =>
      rw [List.foldl_append, List.foldl_cons, List.foldl_nil,
        P2A.processRow_orders, List.filterMap_append, minFold_append, ← ih]
      cases hro : P2A.rowOrder hasOrder r with
      | none => by_cases hk : P2A.rowKey language r = k <;>
          simp [hk, hro, minFold, List.filterMap]
      | some q =>
          by_cases hk : P2A.rowKey language r = k
          · rw [show (([r] : List (List JsVal)).filterMap (fun row =>
                if P2A.rowKey language row = k then P2A.rowOrder hasOrder row
                else none)) = [q] by simp [hk, hro]]
            simp only [hk, if_pos rfl]
            cases lookupA (l.foldl (P2A.processRow hasOrder language) ([], [])).2 k with
            | none => rfl
            | some cur => rfl
          · rw [show (([r] : List (List JsVal)).filterMap (fun row =>
                if P2A.rowKey language row = k then P2A.rowOrder hasOrder row
                else none)) = [] by simp [hk]]
            simp only [if_neg hk]
            cases lookupA (l.foldl (P2A.processRow hasOrder language) ([], [])).2 k with
            | none => rfl
            | some cur => rfl

theorem P0.foldCD_ne_nil (hasOrder : Bool) (language : String) :
    ∀ (l : List (List JsVal))
      (acc : List (String × P0.CatData) × List (String × ℚ)),
      acc.1 ≠ [] → (l.foldl (P0.processRow hasOrder language) acc).1 ≠ [] := by
  intro l
  induction l with
  | nil => intro acc h; exact h
  | cons r t ih =>
      intro acc h
      rw [List.foldl_cons]
      exact ih _ (upsert_ne_nil _ _ _)

/-- C10: when several rows resolve to the same category name, the
pre-aggregated variants keep only the count/measure of the LAST such row
(part_000 keeps the count and average of the last row, the part_002
attribute variant its measure; earlier values are overwritten, never
summed), while the order value the attribute variant retains is the
smallest non-NaN order value seen across the duplicated rows.  The last
conjunct ties the part_000 fold to `processData`: whenever the slot guard
lets the loop run, `allCategoryData` is exactly the fold result. -/
theorem C10_duplicate_category_resolution
    (hasOrder : Bool) (language : String) (data : List (List JsVal)) (k : String)
    (slots : List Slot) (colors : List String) (sel : Option String) :
    (lookupA (data.foldl (P0.processRow hasOrder language) ([], [])).1 k =
      ((data.filter (fun row => P0.rowKey language row = k)).getLast?).map
        (P0.rowValue hasOrder)) ∧
    (lookupA (data.foldl (P2A.processRow hasOrder language) ([], [])).1 k =
      ((data.filter (fun row => P2A.rowKey language row = k)).getLast?).map
        (P2A.rowMeasure hasOrder)) ∧
    (lookupA (data.foldl (P2A.processRow hasOrder language) ([], [])).2 k =
      minFold none (data.filterMap (fun row =>
        if P2A.rowKey language row = k then P2A.rowOrder hasOrder row else none))) ∧
    (data ≠ [] →
      slotFilled (findSlot slots "category") = true →
      slotFilled (findSlot slots "size") = true →
      slotFilled (findSlot slots "measure") = true →
      (P0.processData data slots colors language sel).allCategoryData =
        (data.foldl
          (P0.processRow (slotFilled (findSlot slots "order")) language)
          ([], [])).1) := by
  refine ⟨P0.foldCD_lookup hasOrder language data k,
    P2A.foldSM_lookup hasOrder language data k,
    P2A.foldSO_lookup hasOrder language data k,
    fun hdata hcat hsize hmeas => ?_⟩
  match data, hdata with
  | r :: t, _ =>
      have hne : ((r :: t).foldl
          (P0.processRow (slotFilled (findSlot slots "order")) language)
          ([], [])).1 ≠ [] := by
        rw [List.foldl_cons]
        exact P0.foldCD_ne_nil _ _ t _ (upsert_ne_nil _ _ _)
      simp only [P0.processData, hcat, hsize, hmeas, List.isEmpty_cons,
        Bool.not_false, Bool.and_self, Bool.and_true, if_true]
      rw [if_neg (by simpa [List.isEmpty_iff] using hne)]

/-- C10 witness: two rows both naming category "A" — the retained count
and average are those of the second row. -/
theorem C10_duplicate_category_resolution_witness :
    lookupA ([[JsVal.str "A" none, JsVal.num (some 1), JsVal.num (some 10)],
              [JsVal.str "A" none, JsVal.num (some 7), JsVal.num (some 2)]].foldl
      (P0.processRow false "en") ([], [])).1 "A" =
      (([[JsVal.str "A" none, JsVal.num (some 1), JsVal.num (some 10)],
         [JsVal.str "A" none, JsVal.num (some 7), JsVal.num (some 2)]].filter
        (fun row => P0.rowKey "en" row = "A")).getLast?).map (P0.rowValue false) :=
  (C10_duplicate_category_resolution false "en"
    [[JsVal.str "A" none, JsVal.num (some 1), JsVal.num (some 10)],
     [JsVal.str "A" none, JsVal.num (some 7), JsVal.num (some 2)]] "A" [] [] none).1
